import Mathlib

/-! Verification of the browser-driven image-generation engine.

Shallow embedding of the Python sources under `src/`:
* `src/src/domain/exceptions.py`            → `ErrKind`, `PyError`, `isDomainException`
* `src/src/domain/value_objects/image_count.py` → `ImageCount`
* `src/src/domain/value_objects/prompt.py`  → `Prompt`
* `src/src/infrastructure/ai/downloader.py` → `getHighQualityUrl`, `findChromeDownload`,
  `ImageDownloaderService.download`
* `src/src/infrastructure/ai/gemini/*`      → prompt manager, uploader, tool selector, navigator

Python strings that get processed (stripped, split, lowercased, truncated) are
modelled as `List Char`; opaque strings (paths, messages, ids) as `String`.
Fallible Python code is modelled as `Except PyError`; the browser/DOM/network
environment each method interrogates is passed explicitly as a record or
function argument.
-/

/-- Exception taxonomy of `src/src/domain/exceptions.py` plus the two
non-domain classes the code interacts with: Python's builtin `ValueError`
(raised by the value objects) and `genericError` standing for any
non-domain exception (selenium / requests errors). -/
inductive ErrKind where
  | valueError
  | validationError
  | imageProcessingError
  | browserError
  | clipboardError
  | downloadError
  | aiServiceError
  | navigationError
  | responseError
  | imageGenerationError
  | botGatewayError
  | configurationError
  | genericError
deriving DecidableEq, Repr

/-- A raised Python exception: its class and its message. -/
structure PyError where
  kind : ErrKind
  msg : String
deriving DecidableEq, Repr

/-- The `DomainException` subclasses (everything in `exceptions.py`); the builtin
`ValueError` and selenium/requests errors are not domain exceptions, so the
workflow's `except DomainException` does not catch them. -/
def isDomainException (k : ErrKind) : Bool :=
  match k with
  | .valueError => false
  | .genericError => false
  | _ => true

/-- The kind of the exception carried by an `Except` result, if any. -/
def errKind {α : Type} (r : Except PyError α) : Option ErrKind :=
  match r with
  | .error e => some e.kind
  | .ok _ => none

/-- Whitespace characters stripped by Python's `str.strip()` (the ASCII ones:
space, tab, newline, carriage return, vertical tab, form feed). -/
def isPySpace (c : Char) : Bool :=
  c == ' ' || c == '\t' || c == '\n' || c == '\r' ||
  c == Char.ofNat 11 || c == Char.ofNat 12

/-- Python `s.strip()`: drop leading and trailing whitespace. -/
def pythonStrip (s : List Char) : List Char :=
  ((s.dropWhile isPySpace).reverse.dropWhile isPySpace).reverse

/-- The `ImageCount` value object (`image_count.py`); the dataclass field. -/
structure ImageCount where
  value : Int
deriving DecidableEq, Repr

/-- The `_MIN_COUNT` in `image_count.py`. -/
def ImageCount.MIN_COUNT : Int := 1

/-- The `_MAX_COUNT` in `image_count.py`. -/
def ImageCount.MAX_COUNT : Int := 9

/-- The `ImageCount.__post_init__`: an int outside `[_MIN_COUNT, _MAX_COUNT]`
raises the builtin `ValueError` (the `isinstance` check is subsumed by the
`Int` argument type). -/
def ImageCount.mk? (value : Int) : Except PyError ImageCount :=
  if value < ImageCount.MIN_COUNT || value > ImageCount.MAX_COUNT then
    .error ⟨.valueError, "ImageCount 1-9 arasında olmalıdır"⟩
  else
    .ok ⟨value⟩

/-- The `_MAX_LENGTH` in `prompt.py`. -/
def Prompt.MAX_LENGTH : Nat := 10000

/-- The `Prompt` value object (`prompt.py`); the dataclass field. -/
structure Prompt where
  text : List Char
deriving DecidableEq, Repr

/-- The `Prompt.__post_init__`: empty / whitespace-only text raises the builtin
`ValueError`; text longer than `_MAX_LENGTH` is silently truncated to its
first `_MAX_LENGTH` characters. -/
def Prompt.mk? (text : List Char) : Except PyError Prompt :=
  if text.isEmpty || (pythonStrip text).isEmpty then
    .error ⟨.valueError, "Prompt boş olamaz"⟩
  else if Prompt.MAX_LENGTH < text.length then
    .ok ⟨text.take Prompt.MAX_LENGTH⟩
  else
    .ok ⟨text⟩

namespace SpecHelpers

theorem stripEmpty_of_empty {s : List Char} (h : s.isEmpty = true) :
    (pythonStrip s).isEmpty = true := by
  cases s with
  | nil => rfl
  | cons a l => simp [List.isEmpty] at h

theorem pythonStrip_replicate_a (n : Nat) :
    pythonStrip (List.replicate (n + 1) 'a') = List.replicate (n + 1) 'a' := by
  have hf : isPySpace 'a' = false := by decide
  have hdrop : ∀ m : Nat,
      List.dropWhile isPySpace (List.replicate (m + 1) 'a') = List.replicate (m + 1) 'a' := by
    intro m
    rw [List.replicate_succ, List.dropWhile_cons, hf]
    simp [← List.replicate_succ]
  unfold pythonStrip
  rw [hdrop n, List.reverse_replicate, hdrop n, List.reverse_replicate]

end SpecHelpers

/-- C3 counterexample: constructing `ImageCount(0)` raises the builtin
`ValueError`, not the domain `ValidationError`; in particular the raised
class is not even a `DomainException`. -/
theorem imageCount_counterexample :
    errKind (ImageCount.mk? 0) = some ErrKind.valueError ∧
    ErrKind.valueError ≠ ErrKind.validationError ∧
    isDomainException ErrKind.valueError = false := by
  refine ⟨rfl, by decide, rfl⟩

/-- C3 (amended): `ImageCount.__post_init__` accepts every integer in the
inclusive range 1–9 (storing it unchanged) and rejects every integer outside
it — in particular 0 and 10 — by raising the builtin `ValueError` (not
`ValidationError`). -/
theorem imageCount_range (n : Int) :
    (ImageCount.MIN_COUNT ≤ n → n ≤ ImageCount.MAX_COUNT →
      ImageCount.mk? n = .ok ⟨n⟩) ∧
    (n < ImageCount.MIN_COUNT ∨ ImageCount.MAX_COUNT < n →
      errKind (ImageCount.mk? n) = some ErrKind.valueError) := by
  constructor
  · intro h1 h2
    simp only [ImageCount.mk?]
    rw [if_neg]
    simp only [Bool.or_eq_true, decide_eq_true_eq, not_or]
    exact ⟨by omega, by omega⟩
  · intro h
    simp only [ImageCount.mk?]
    rw [if_pos]
    · rfl
    · simp only [Bool.or_eq_true, decide_eq_true_eq]
      omega

/-- C3 witness: 1 and 9 are accepted, 0 and 10 rejected with `ValueError`. -/
theorem imageCount_range_witness :
    ImageCount.mk? 1 = .ok ⟨1⟩ ∧ ImageCount.mk? 9 = .ok ⟨9⟩ ∧
    errKind (ImageCount.mk? 0) = some ErrKind.valueError ∧
    errKind (ImageCount.mk? 10) = some ErrKind.valueError :=
  ⟨(imageCount_range 1).1 (by decide) (by decide),
   (imageCount_range 9).1 (by decide) (by decide),
   (imageCount_range 0).2 (by decide),
   (imageCount_range 10).2 (by decide)⟩

/-- C4: `Prompt.__post_init__` fails (builtin `ValueError`) exactly on empty
or whitespace-only text; otherwise it constructs the prompt, retaining the
full text when it is within the 10,000-character cap and silently truncating
to exactly the first 10,000 characters when the text is longer. -/
theorem prompt_construction (s : List Char) :
    ((pythonStrip s).isEmpty = true →
      Prompt.mk? s = .error ⟨.valueError, "Prompt boş olamaz"⟩) ∧
    ((pythonStrip s).isEmpty = false →
      ∃ p : Prompt, Prompt.mk? s = .ok p ∧
        p.text = (if Prompt.MAX_LENGTH < s.length then s.take Prompt.MAX_LENGTH else s) ∧
        (Prompt.MAX_LENGTH < s.length → p.text.length = Prompt.MAX_LENGTH)) := by
  constructor
  · intro h
    simp [Prompt.mk?, h]
  · intro h
    have hne : s.isEmpty = false := by
      cases hs : s.isEmpty
      · rfl
      · exact absurd (SpecHelpers.stripEmpty_of_empty hs) (by simp [h])
    by_cases hlen : Prompt.MAX_LENGTH < s.length
    · refine ⟨⟨s.take Prompt.MAX_LENGTH⟩, ?_, ?_, ?_⟩
      · simp [Prompt.mk?, hne, h, hlen]
      · simp [hlen]
      · intro _
        simp only [List.length_take]
        omega
    · refine ⟨⟨s⟩, ?_, ?_, ?_⟩
      · simp [Prompt.mk?, hne, h, hlen]
      · simp [hlen]
      · intro hc
        exact absurd hc hlen

/-- C4 witness: a 10,001-character text is accepted and exactly its first
10,000 characters are retained. -/
theorem prompt_construction_witness :
    ∃ p : Prompt, Prompt.mk? (List.replicate 10001 'a') = .ok p ∧
      p.text = (List.replicate 10001 'a').take 10000 ∧
      p.text.length = 10000 := by
  have hstrip : (pythonStrip (List.replicate 10001 'a')).isEmpty = false := by
    have h := SpecHelpers.pythonStrip_replicate_a 10000
    norm_num at h
    rw [h]
    simp
  obtain ⟨p, hp, htext, hlen⟩ :=
    (prompt_construction (List.replicate 10001 'a')).2 hstrip
  have hlen10001 : (List.replicate 10001 'a').length = 10001 := List.length_replicate 10001 'a'
  have hcond : Prompt.MAX_LENGTH < (List.replicate 10001 'a').length := by
    rw [hlen10001]
    norm_num [Prompt.MAX_LENGTH]
  refine ⟨p, hp, ?_, hlen hcond⟩
  rw [htext, if_pos hcond]
  rfl

/-- Python `s.split(sep)` (`str.split` with a single-character separator), as
used by `ImageDownloaderService._get_high_quality_url`. -/
def pySplit (sep : Char) : List Char → List (List Char)
  | [] => [[]]
  | c :: rest =>
    let r := pySplit sep rest
    if c = sep then [] :: r else (c :: r.headI) :: r.tail

/-- The `ImageDownloaderService._get_high_quality_url`: if the URL contains `'='`,
keep `url.split('=')[0]` and append `=s4096`; otherwise return it unchanged. -/
def getHighQualityUrl (url : List Char) : List Char :=
  if url.contains '=' then (pySplit '=' url).headI ++ ('=' :: String.toList "s4096")
  else url

namespace SpecHelpers

theorem pySplit_ne_nil (sep : Char) (s : List Char) : pySplit sep s ≠ [] := by
  cases s with
  | nil => simp [pySplit]
  | cons c rest =>
    simp only [pySplit]
    by_cases h : c = sep <;> simp [h]

theorem headI_pySplit (sep : Char) (s : List Char) :
    (pySplit sep s).headI = s.takeWhile (fun c => !(c == sep)) := by
  induction s with
  | nil => rfl
  | cons c rest ih =>
    simp only [pySplit, List.takeWhile_cons]
    by_cases h : c = sep
    · simp [h]
    · simp [h, ih]

end SpecHelpers

/-- C10: the download-URL quality rewrite is pure on strings: a URL containing
`'='` maps to its prefix before the first `'='` with `=s4096` appended
(everything after the first `'='` discarded), and a URL without `'='` is
returned unchanged. -/
theorem highQualityUrl_spec (url : List Char) :
    (url.contains '=' = true →
      getHighQualityUrl url =
        url.takeWhile (fun c => !(c == '=')) ++ ('=' :: String.toList "s4096")) ∧
    (url.contains '=' = false → getHighQualityUrl url = url) := by
  constructor
  · intro h
    rw [getHighQualityUrl, if_pos h, SpecHelpers.headI_pySplit]
  · intro h
    have hc : ¬(url.contains '=' = true) := by
      rw [h]
      exact Bool.false_ne_true
    rw [getHighQualityUrl, if_neg hc]

/-- C10 witness: `.../abcXYZ=w512-h512` maps to `.../abcXYZ=s4096`; a URL
with no `'='` is unchanged. -/
theorem highQualityUrl_witness :
    getHighQualityUrl (String.toList "https://lh3.googleusercontent.com/gg/abcXYZ=w512-h512") =
      String.toList "https://lh3.googleusercontent.com/gg/abcXYZ=s4096" ∧
    getHighQualityUrl (String.toList "no-equals-url") = String.toList "no-equals-url" := by
  constructor
  · exact ((highQualityUrl_spec _).1 (by decide)).trans (by decide)
  · exact (highQualityUrl_spec _).2 (by decide)

/-- A matched response container node as seen by the extraction script:
the text that survives removal of the reasoning/thoughts sub-elements, and
the text inside those sub-elements (removed from the clone). -/
structure ResponseNode where
  bodyText : List Char
  thoughtsText : List Char
deriving DecidableEq

/-- The `GeminiScripts.GET_RESPONSE_TEXT`: clone the node, remove the
`.thoughts-content` / `.thinking-content` / thoughts-button sub-elements,
return `clone.innerText.trim()` — i.e. the trimmed body text, with the
thoughts text playing no part. -/
def GeminiScripts.GET_RESPONSE_TEXT (node : ResponseNode) : List Char :=
  pythonStrip node.bodyText

/-- The `GeminiSelectors.MODEL_RESPONSE_VARIANTS` (`selectors.py`). -/
def GeminiSelectors.MODEL_RESPONSE_VARIANTS : List String :=
  ["model-response", ".model-response-text", ".response-content", ".message-content",
   "[data-message-author-role=\"model\"]", ".markdown-content"]

/-- The candidate order of `GeminiPromptManager.get_response_text`: the
`model-response` tag-name lookup first, then the CSS variants with
`'model-response'` skipped (`continue`) because it was already tried. -/
def responseCandidates : List String :=
  "model-response" ::
    GeminiSelectors.MODEL_RESPONSE_VARIANTS.filter (fun s => !(s == "model-response"))

/-- The acceptance test applied to one candidate's extracted text
(`if text_content and len(text_content.strip()) > 10: return
text_content.strip()`); `none` models a candidate with no matched elements or
a raised driver error. -/
def acceptedResponse (o : Option (List Char)) : Option (List Char) :=
  match o with
  | none => none
  | some t => if t ≠ [] ∧ 10 < (pythonStrip t).length then some (pythonStrip t) else none

/-- The candidate loop of `get_response_text`: first accepted candidate wins;
exhausting every candidate raises `ResponseError`. -/
def getResponseTextGo : List (Option (List Char)) → Except PyError (List Char)
  | [] => .error ⟨.responseError, "Yanıt bulunamadı - Gemini oturumunu kontrol edin"⟩
  | o :: rest =>
    match acceptedResponse o with
    | some t => .ok t
    | none => getResponseTextGo rest

/-- The `GeminiPromptManager.get_response_text`, over an environment `env` giving,
for each selector, the last matched response node (or `none`). -/
def GeminiPromptManager.getResponseText (env : String → Option ResponseNode) :
    Except PyError (List Char) :=
  getResponseTextGo
    (responseCandidates.map (fun s => (env s).map GeminiScripts.GET_RESPONSE_TEXT))

namespace SpecHelpers

theorem go_cons_some {o : Option (List Char)} {rest : List (Option (List Char))}
    {t : List Char} (h : acceptedResponse o = some t) :
    getResponseTextGo (o :: rest) = .ok t := by
  simp [getResponseTextGo, h]

theorem go_cons_none {o : Option (List Char)} {rest : List (Option (List Char))}
    (h : acceptedResponse o = none) :
    getResponseTextGo (o :: rest) = getResponseTextGo rest := by
  simp [getResponseTextGo, h]

theorem responseCandidates_eq :
    responseCandidates =
      ["model-response", ".model-response-text", ".response-content", ".message-content",
       "[data-message-author-role=\"model\"]", ".markdown-content"] := by
  rfl

theorem length_dropWhile_le (p : Char → Bool) (l : List Char) :
    (l.dropWhile p).length ≤ l.length := by
  induction l with
  | nil => simp
  | cons a l ih =>
    rw [List.dropWhile_cons]
    by_cases h : p a = true
    · rw [if_pos h]
      simp only [List.length_cons]
      omega
    · rw [if_neg h]

theorem length_pythonStrip_le (s : List Char) : (pythonStrip s).length ≤ s.length := by
  unfold pythonStrip
  calc ((s.dropWhile isPySpace).reverse.dropWhile isPySpace).reverse.length
      = ((s.dropWhile isPySpace).reverse.dropWhile isPySpace).length := by
        rw [List.length_reverse]
    _ ≤ (s.dropWhile isPySpace).reverse.length := length_dropWhile_le _ _
    _ = (s.dropWhile isPySpace).length := by rw [List.length_reverse]
    _ ≤ s.length := length_dropWhile_le _ _

theorem acceptedResponse_none_of_short {t : List Char}
    (h : (pythonStrip t).length ≤ 10) : acceptedResponse (some t) = none := by
  simp only [acceptedResponse]
  rw [if_neg]
  rintro ⟨-, hlt⟩
  omega

end SpecHelpers

/-- C5: response extraction tries the candidates in list order; each
candidate's text is the clone's text with the thoughts sub-elements removed
(so it does not depend on the thoughts text); a candidate is accepted only if
its stripped length is strictly greater than 10, and the first accepted
candidate's stripped text is returned; exhausting all candidates raises
`ResponseError`. In particular, when the first two candidates yield text of
stripped length ≤ 10 and the third yields a 50-character string, that string
is returned. -/
theorem getResponseText_spec (env : String → Option ResponseNode) :
    (∀ n m : ResponseNode, n.bodyText = m.bodyText →
      GeminiScripts.GET_RESPONSE_TEXT n = GeminiScripts.GET_RESPONSE_TEXT m) ∧
    (∀ t : List Char,
      acceptedResponse ((env "model-response").map GeminiScripts.GET_RESPONSE_TEXT) = some t →
      GeminiPromptManager.getResponseText env = .ok t) ∧
    ((∀ s ∈ responseCandidates,
        acceptedResponse ((env s).map GeminiScripts.GET_RESPONSE_TEXT) = none) →
      GeminiPromptManager.getResponseText env =
        .error ⟨.responseError, "Yanıt bulunamadı - Gemini oturumunu kontrol edin"⟩) ∧
    (∀ n0 n1 n2 : ResponseNode,
      env "model-response" = some n0 →
      (pythonStrip (GeminiScripts.GET_RESPONSE_TEXT n0)).length ≤ 10 →
      env ".model-response-text" = some n1 →
      (pythonStrip (GeminiScripts.GET_RESPONSE_TEXT n1)).length ≤ 10 →
      env ".response-content" = some n2 →
      pythonStrip (GeminiScripts.GET_RESPONSE_TEXT n2) = GeminiScripts.GET_RESPONSE_TEXT n2 →
      (GeminiScripts.GET_RESPONSE_TEXT n2).length = 50 →
      GeminiPromptManager.getResponseText env = .ok (GeminiScripts.GET_RESPONSE_TEXT n2)) := by
  refine ⟨?_, ?_, ?_, ?_⟩
  · intro n m h
    simp [GeminiScripts.GET_RESPONSE_TEXT, h]
  · intro t h
    rw [GeminiPromptManager.getResponseText, SpecHelpers.responseCandidates_eq]
    simp only [List.map_cons]
    exact SpecHelpers.go_cons_some h
  · intro h
    rw [GeminiPromptManager.getResponseText, SpecHelpers.responseCandidates_eq]
    simp only [List.map_cons, List.map_nil]
    rw [SpecHelpers.go_cons_none (h _ (by rw [SpecHelpers.responseCandidates_eq]; simp)),
        SpecHelpers.go_cons_none (h _ (by rw [SpecHelpers.responseCandidates_eq]; simp)),
        SpecHelpers.go_cons_none (h _ (by rw [SpecHelpers.responseCandidates_eq]; simp)),
        SpecHelpers.go_cons_none (h _ (by rw [SpecHelpers.responseCandidates_eq]; simp)),
        SpecHelpers.go_cons_none (h _ (by rw [SpecHelpers.responseCandidates_eq]; simp)),
        SpecHelpers.go_cons_none (h _ (by rw [SpecHelpers.responseCandidates_eq]; simp))]
    rfl
  · intro n0 n1 n2 h0 h0len h1 h1len h2 h2strip h2len
    rw [GeminiPromptManager.getResponseText, SpecHelpers.responseCandidates_eq]
    simp only [List.map_cons]
    rw [h0, h1, h2]
    simp only [Option.map_some']
    rw [SpecHelpers.go_cons_none (SpecHelpers.acceptedResponse_none_of_short h0len),
        SpecHelpers.go_cons_none (SpecHelpers.acceptedResponse_none_of_short h1len)]
    apply SpecHelpers.go_cons_some
    simp only [acceptedResponse]
    rw [if_pos, h2strip]
    refine ⟨?_, ?_⟩
    · intro hnil
      rw [hnil] at h2len
      simp at h2len
    · rw [h2strip, h2len]
      omega

/-- C5 witness: a concrete environment where the first two candidates yield
short text and the third a 50-character string; that string is returned. -/
theorem getResponseText_witness :
    GeminiPromptManager.getResponseText
      (fun s =>
        if s = "model-response" then some ⟨String.toList "  short  ", String.toList "thinking"⟩
        else if s = ".model-response-text" then some ⟨String.toList "tiny", []⟩
        else if s = ".response-content" then some ⟨List.replicate 50 'x', String.toList "inner thoughts"⟩
        else none) = .ok (List.replicate 50 'x') := by
  have h := (getResponseText_spec
      (fun s =>
        if s = "model-response" then some ⟨String.toList "  short  ", String.toList "thinking"⟩
        else if s = ".model-response-text" then some ⟨String.toList "tiny", []⟩
        else if s = ".response-content" then some ⟨List.replicate 50 'x', String.toList "inner thoughts"⟩
        else none)).2.2.2
      ⟨String.toList "  short  ", String.toList "thinking"⟩ ⟨String.toList "tiny", []⟩
      ⟨List.replicate 50 'x', String.toList "inner thoughts"⟩
      (by decide) (by decide) (by decide) (by decide) (by decide) (by decide) (by decide)
  have hstrip : GeminiScripts.GET_RESPONSE_TEXT
      ⟨List.replicate 50 'x', String.toList "inner thoughts"⟩ = List.replicate 50 'x' := by decide
  rw [hstrip] at h
  exact h

/-- The timeout table of `gemini/timeouts.py`. -/
def GeminiTimeouts.PAGE_LOAD : Nat := 5

/-- The `GeminiTimeouts.PAGE_READY`. -/
def GeminiTimeouts.PAGE_READY : Nat := 3

/-- The `GeminiTimeouts.ELEMENT_VISIBLE`. -/
def GeminiTimeouts.ELEMENT_VISIBLE : Nat := 30

/-- The `GeminiTimeouts.ELEMENT_CLICKABLE`. -/
def GeminiTimeouts.ELEMENT_CLICKABLE : Nat := 20

/-- The `GeminiTimeouts.BUTTON_CLICK`. -/
def GeminiTimeouts.BUTTON_CLICK : Nat := 15

/-- The `GeminiTimeouts.IMAGE_UPLOAD`. -/
def GeminiTimeouts.IMAGE_UPLOAD : Nat := 5

/-- The `GeminiTimeouts.IMAGE_VERIFY`: the upload-verification poll count. -/
def GeminiTimeouts.IMAGE_VERIFY : Nat := 10

/-- The `GeminiTimeouts.IMAGE_GENERATION`. -/
def GeminiTimeouts.IMAGE_GENERATION : Nat := 180

/-- The `GeminiTimeouts.RESPONSE_WAIT`. -/
def GeminiTimeouts.RESPONSE_WAIT : Nat := 120

/-- The `GeminiTimeouts.RESPONSE_CHECK`. -/
def GeminiTimeouts.RESPONSE_CHECK : Nat := 3

/-- The `GeminiTimeouts.CLIPBOARD_WAIT`. -/
def GeminiTimeouts.CLIPBOARD_WAIT : Nat := 2

/-- The `GeminiTimeouts.SHORT_WAIT`: the 1-second spacing of the verify loop. -/
def GeminiTimeouts.SHORT_WAIT : Nat := 1

/-- The `GeminiTimeouts.MEDIUM_WAIT`. -/
def GeminiTimeouts.MEDIUM_WAIT : Nat := 2

/-- The `GeminiTimeouts.LONG_WAIT`. -/
def GeminiTimeouts.LONG_WAIT : Nat := 5

/-- The loop body of `GeminiImageUploader._verify_upload`: `env i` is what
attempt `i`'s `CHECK_UPLOADED_IMAGE` script observes (`false` also covers a
raised driver error, swallowed by the inner `except`). Returns the verify
result together with the number of polls actually performed. -/
def verifyUploadGo (env : Nat → Bool) : Nat → Nat → Bool × Nat
  | 0, i => (false, i)
  | fuel + 1, i => if env i then (true, i + 1) else verifyUploadGo env fuel (i + 1)

/-- The `GeminiImageUploader._verify_upload`: up to `IMAGE_VERIFY` (=10) polls at
`SHORT_WAIT` (=1s) spacing; returns `true` on the first successful poll and
`false` (after a logged warning, no exception) when all polls fail. -/
def verifyUpload (env : Nat → Bool) : Bool × Nat :=
  verifyUploadGo env GeminiTimeouts.IMAGE_VERIFY 0

/-- The environment of `GeminiImageUploader.upload_image`: whether the
clipboard copy succeeds, whether the prompt area is found and clickable, and
what each verification poll observes. -/
structure UploadEnv where
  clipboardOk : Bool
  promptAreaClickable : Bool
  verifyPoll : Nat → Bool

/-- The `GeminiImageUploader.upload_image`: clipboard copy and prompt-area click
failures are re-raised as `AIServiceError`; the `_verify_upload` result is
called and then discarded — a failed verification never fails the phase. -/
def uploadImage (env : UploadEnv) : Except PyError Unit :=
  if env.clipboardOk = false then .error ⟨.aiServiceError, "Fotoğraf yüklenemedi"⟩
  else if env.promptAreaClickable = false then .error ⟨.aiServiceError, "Fotoğraf yüklenemedi"⟩
  else
    match verifyUpload env.verifyPoll with
    | _ => .ok ()

namespace SpecHelpers

theorem verifyUploadGo_polls_le (env : Nat → Bool) (fuel i : Nat) :
    (verifyUploadGo env fuel i).2 ≤ i + fuel := by
  induction fuel generalizing i with
  | zero => simp [verifyUploadGo]
  | succ f ih =>
    rw [verifyUploadGo]
    by_cases h : env i = true
    · rw [if_pos h]
      omega
    · rw [if_neg h]
      have := ih (i + 1)
      omega

theorem verifyUploadGo_exhaust (env : Nat → Bool) (fuel : Nat) :
    ∀ i, (∀ j, j < fuel → env (i + j) = false) →
      verifyUploadGo env fuel i = (false, i + fuel) := by
  induction fuel with
  | zero => intro i _; simp [verifyUploadGo]
  | succ f ih =>
    intro i h
    have h0 : env i = false := by
      have := h 0 (by omega)
      simpa using this
    rw [verifyUploadGo, if_neg (by rw [h0]; exact Bool.false_ne_true)]
    have := ih (i + 1) (fun j hj => by
      have := h (j + 1) (by omega)
      simpa [Nat.add_assoc, Nat.add_comm 1 j] using this)
    rw [this]
    congr 1
    omega

theorem verifyUploadGo_found (env : Nat → Bool) (fuel : Nat) :
    ∀ i k, k < fuel → env (i + k) = true → (∀ j, j < k → env (i + j) = false) →
      verifyUploadGo env fuel i = (true, i + k + 1) := by
  induction fuel with
  | zero => intro i k hk _ _; omega
  | succ f ih =>
    intro i k hk ht hbefore
    rw [verifyUploadGo]
    by_cases h0 : env i = true
    · have hk0 : k = 0 := by
        by_contra hne
        have hb := hbefore 0 (Nat.pos_of_ne_zero hne)
        rw [Nat.add_zero, h0] at hb
        cases hb
      subst hk0
      rw [if_pos h0]
    · rw [if_neg h0]
      cases k with
      | zero =>
        rw [Nat.add_zero] at ht
        exact absurd ht h0
      | succ q =>
        have hrec := ih (i + 1) q (by omega)
          (by rw [show i + 1 + q = i + (q + 1) from by omega]; exact ht)
          (fun j hj => by
            rw [show i + 1 + j = i + (j + 1) from by omega]
            exact hbefore (j + 1) (by omega))
        rw [hrec]
        congr 1
        omega

end SpecHelpers

/-- C6: upload verification polls at most 10 times; a first success at poll
`k` ends the loop immediately with `true` after exactly `k+1` polls (the
remaining attempts are never made); when every poll fails it returns `false`
after exactly 10 polls; and `upload_image` succeeds regardless of the
verification outcome — verification failure never fails the upload phase. -/
theorem verifyUpload_spec (uenv : UploadEnv) :
    (verifyUpload uenv.verifyPoll).2 ≤ GeminiTimeouts.IMAGE_VERIFY ∧
    (∀ k, k < GeminiTimeouts.IMAGE_VERIFY → uenv.verifyPoll k = true →
      (∀ j, j < k → uenv.verifyPoll j = false) →
      verifyUpload uenv.verifyPoll = (true, k + 1)) ∧
    ((∀ i, i < GeminiTimeouts.IMAGE_VERIFY → uenv.verifyPoll i = false) →
      verifyUpload uenv.verifyPoll = (false, GeminiTimeouts.IMAGE_VERIFY)) ∧
    (uenv.clipboardOk = true → uenv.promptAreaClickable = true →
      uploadImage uenv = .ok ()) := by
  refine ⟨?_, ?_, ?_, ?_⟩
  · have h := SpecHelpers.verifyUploadGo_polls_le uenv.verifyPoll GeminiTimeouts.IMAGE_VERIFY 0
    simpa [verifyUpload] using h
  · intro k hk ht hb
    have h := SpecHelpers.verifyUploadGo_found uenv.verifyPoll GeminiTimeouts.IMAGE_VERIFY 0 k hk
      (by simpa using ht) (fun j hj => by simpa using hb j hj)
    simpa [verifyUpload] using h
  · intro hall
    have h := SpecHelpers.verifyUploadGo_exhaust uenv.verifyPoll GeminiTimeouts.IMAGE_VERIFY 0
      (fun j hj => by simpa using hall j hj)
    simpa [verifyUpload] using h
  · intro h1 h2
    simp [uploadImage, h1, h2]

/-- C6 witness: a poll succeeding on attempt 3 of 10 returns `true` after
exactly 3 polls; an always-failing poll returns `false` after 10 polls; and
the upload phase still succeeds in the latter case. -/
theorem verifyUpload_witness :
    verifyUpload (fun i => i == 2) = (true, 3) ∧
    verifyUpload (fun _ => false) = (false, 10) ∧
    uploadImage ⟨true, true, fun _ => false⟩ = .ok () := by
  refine ⟨?_, ?_, ?_⟩
  · exact (verifyUpload_spec ⟨true, true, fun i => i == 2⟩).2.1 2 (by decide) (by decide)
      (by decide)
  · exact (verifyUpload_spec ⟨true, true, fun _ => false⟩).2.2.1 (by decide)
  · exact (verifyUpload_spec ⟨true, true, fun _ => false⟩).2.2.2 rfl rfl

/-- The `GeminiSelectors.NEW_CHAT_VARIANTS` (`selectors.py`). -/
def GeminiSelectors.NEW_CHAT_VARIANTS : List String :=
  ["button[aria-label=\"Yeni sohbet\"]", "button[aria-label=\"New chat\"]",
   "button[class*=\"side-nav-action-\"]", "a[href=\"/app\"]"]

/-- Driver behaviour seen by `GeminiNavigator.start_new_chat`:
`selectorHits` says, for each selector of `NEW_CHAT_VARIANTS` in order,
whether `find_element` + script click succeeds (any inner failure is absorbed
by the per-selector `except: continue`); `getOk` is the `driver.get` call of
the in-`try` URL fallback; `refreshOk` the `driver.refresh` of
`refresh_page`; `recoveryGetOk` the `driver.get` inside the outer `except`
handler — which is NOT itself guarded. -/
structure NewChatEnv where
  selectorHits : List Bool
  getOk : Bool
  refreshOk : Bool
  recoveryGetOk : Bool

/-- The `GeminiNavigator.start_new_chat`: click the first working new-chat
selector; otherwise reload the app URL and refresh; any exception from that
fallback is caught once and answered with a second `driver.get`, whose own
failure propagates out of the method. -/
def GeminiNavigator.startNewChat (env : NewChatEnv) : Except PyError Unit :=
  if env.selectorHits.any (fun b => b) then .ok ()
  else if env.getOk then
    if env.refreshOk then .ok ()
    else if env.recoveryGetOk then .ok ()
    else .error ⟨.genericError, "WebDriverException: get failed"⟩
  else if env.recoveryGetOk then .ok ()
  else .error ⟨.genericError, "WebDriverException: get failed"⟩

/-- C9 counterexample: a driver whose page loads always raise makes
`start_new_chat` raise — it does not return normally for every driver
behaviour, even with every selector failing. -/
theorem startNewChat_counterexample :
    GeminiNavigator.startNewChat ⟨[false, false, false, false], false, false, false⟩ =
      .error ⟨.genericError, "WebDriverException: get failed"⟩ ∧
    GeminiNavigator.startNewChat ⟨[false, false, false, false], false, false, false⟩ ≠
      .ok () := by
  refine ⟨rfl, ?_⟩
  intro h
  exact Except.noConfusion h

/-- C9 (amended): `start_new_chat` never propagates a selector-chain failure:
with every selector failing it degrades to the URL-reload-plus-refresh
fallback and returns normally whenever the reload succeeds (or, failing
that, whenever the recovery reload in the exception handler succeeds); an
exception escapes only when no selector clicked and the reload path itself
raised with the recovery reload also raising. -/
theorem startNewChat_spec (env : NewChatEnv) :
    (env.selectorHits.any (fun b => b) = true →
      GeminiNavigator.startNewChat env = .ok ()) ∧
    (env.selectorHits.any (fun b => b) = false → env.getOk = true → env.refreshOk = true →
      GeminiNavigator.startNewChat env = .ok ()) ∧
    (env.selectorHits.any (fun b => b) = false → env.recoveryGetOk = true →
      GeminiNavigator.startNewChat env = .ok ()) ∧
    (∀ e : PyError, GeminiNavigator.startNewChat env = .error e →
      env.selectorHits.any (fun b => b) = false ∧ env.recoveryGetOk = false ∧
      (env.getOk = false ∨ env.refreshOk = false)) := by
  refine ⟨?_, ?_, ?_, ?_⟩
  · intro h
    simp [GeminiNavigator.startNewChat, h]
  · intro h1 h2 h3
    simp [GeminiNavigator.startNewChat, h1, h2, h3]
  · intro h1 h2
    simp [GeminiNavigator.startNewChat, h1, h2]
  · intro e h
    cases hany : env.selectorHits.any (fun b => b) <;>
      cases hget : env.getOk <;>
      cases hrefresh : env.refreshOk <;>
      cases hrec : env.recoveryGetOk <;>
      simp_all [GeminiNavigator.startNewChat]

/-- C9 witness: with every selector failing, the reload fallback (and,
separately, the recovery reload) returns normally. -/
theorem startNewChat_witness :
    GeminiNavigator.startNewChat ⟨[false, false, false, false], true, true, false⟩ = .ok () ∧
    GeminiNavigator.startNewChat ⟨[false, false, false, false], false, false, true⟩ = .ok () :=
  ⟨(startNewChat_spec ⟨[false, false, false, false], true, true, false⟩).2.1 rfl rfl rfl,
   (startNewChat_spec ⟨[false, false, false, false], false, false, true⟩).2.2.1 rfl rfl⟩

/-- Python `str.lower()` on the alphabet appearing in the menu texts: ASCII
letters plus the Turkish uppercase letters. (Python maps `'İ'` to `'i'`
followed by a combining dot; modelled as plain `'i'`.) -/
def charLower (c : Char) : Char :=
  if 'A' ≤ c ∧ c ≤ 'Z' then Char.ofNat (c.toNat + 32)
  else if c = 'Ö' then 'ö'
  else if c = 'Ü' then 'ü'
  else if c = 'Ğ' then 'ğ'
  else if c = 'Ş' then 'ş'
  else if c = 'Ç' then 'ç'
  else if c = 'İ' then 'i'
  else c

/-- Python `s.lower()` character-wise. -/
def pyLower (s : List Char) : List Char := s.map charLower

/-- The `str.lower()` on an opaque `String` (used for file suffixes). -/
def pyLowerS (s : String) : String := String.mk (pyLower s.data)

/-- Does `hay` start with `needle`? -/
def startsWithChars : List Char → List Char → Bool
  | [], _ => true
  | _ :: _, [] => false
  | a :: as, b :: bs => a == b && startsWithChars as bs

/-- Python's substring test `needle in hay`. -/
def containsSub (needle : List Char) : List Char → Bool
  | [] => needle.isEmpty
  | c :: rest => startsWithChars needle (c :: rest) || containsSub needle rest

/-- The `GeminiSelectors.TOOLS_BUTTON_VARIANTS` (`selectors.py`). -/
def GeminiSelectors.TOOLS_BUTTON_VARIANTS : List String :=
  ["button.toolbox-drawer-button", "button[class*=\"toolbox-drawer\"]",
   "button.toolbox-drawer-button-with-label"]

/-- The `GeminiSelectors.OPTION_SELECTORS` (`selectors.py`). -/
def GeminiSelectors.OPTION_SELECTORS : List String :=
  ["button.toolbox-drawer-item-list-button", "button[class*=\"toolbox-drawer-item\"]",
   ".mat-mdc-list-item button"]

/-- What `GeminiImageGenerator.select_image_generation_tool` sees:
`toolsButtonHits` — for each selector of `TOOLS_BUTTON_VARIANTS`, whether a
clickable tools button was found; `optionLists` — for each selector of
`OPTION_SELECTORS`, the visible texts of the menu items it matches. -/
structure ToolMenuEnv where
  toolsButtonHits : List Bool
  optionLists : List (List (List Char))

/-- The text test of the option loop:
`'görüntü oluştur' in option.text.strip().lower() or 'create image' in ...`. -/
def matchesImageGenOption (t : List Char) : Bool :=
  containsSub (String.toList "görüntü oluştur") (pyLower (pythonStrip t)) ||
  containsSub (String.toList "create image") (pyLower (pythonStrip t))

/-- The option-selector loop: the first selector returning a non-empty
element list wins. -/
def firstNonEmptyOptions : List (List (List Char)) → Option (List (List Char))
  | [] => none
  | l :: rest => if l.isEmpty then firstNonEmptyOptions rest else some l

/-- Index of the first element satisfying `p` (the `for option in options`
loop clicks the first textual match). -/
def firstMatchIdx (p : List Char → Bool) : List (List Char) → Option Nat
  | [] => none
  | t :: rest => if p t then some 0 else (firstMatchIdx p rest).map (· + 1)

/-- The `GeminiImageGenerator.select_image_generation_tool`: returns whether a
menu item was selected together with the index of the clicked item. No tools
button → `(false, none)`; no menu options → `(false, none)`; first textual
match clicked, else the fixed positional fallback `options[2]` — but only
when more than two options exist; otherwise `(false, none)`. -/
def GeminiImageGenerator.selectImageGenerationTool (env : ToolMenuEnv) : Bool × Option Nat :=
  if !(env.toolsButtonHits.any (fun b => b)) then (false, none)
  else
    match firstNonEmptyOptions env.optionLists with
    | none => (false, none)
    | some options =>
      match firstMatchIdx matchesImageGenOption options with
      | some i => (true, some i)
      | none => if 2 < options.length then (true, some 2) else (false, none)

namespace SpecHelpers

theorem firstMatchIdx_spec (p : List Char → Bool) (l : List (List Char)) :
    ∀ i, firstMatchIdx p l = some i →
      ∃ t, l[i]? = some t ∧ p t = true ∧
        ∀ j, j < i → ∃ u, l[j]? = some u ∧ p u = false := by
  induction l with
  | nil => intro i h; simp [firstMatchIdx] at h
  | cons t rest ih =>
    intro i h
    rw [firstMatchIdx] at h
    by_cases hp : p t = true
    · rw [if_pos hp] at h
      injection h with h'
      subst h'
      exact ⟨t, by simp, hp, fun j hj => absurd hj (Nat.not_lt_zero j)⟩
    · rw [if_neg hp] at h
      cases hr : firstMatchIdx p rest with
      | none => rw [hr] at h; simp at h
      | some q =>
        rw [hr] at h
        simp only [Option.map_some'] at h
        injection h with h'
        subst h'
        obtain ⟨t', ht', hpt', hbefore⟩ := ih q hr
        refine ⟨t', by simpa using ht', hpt', ?_⟩
        intro j hj
        cases j with
        | zero =>
          refine ⟨t, by simp, ?_⟩
          cases hx : p t
          · rfl
          · exact absurd hx hp
        | succ j' =>
          obtain ⟨u, hu, hpu⟩ := hbefore j' (by omega)
          exact ⟨u, by simpa using hu, hpu⟩

end SpecHelpers

/-- C8 counterexample: the tools menu opens and holds a single option whose
text does not match; the cited code returns `(false, none)` — it does NOT
fall back to clicking the 1st item. -/
theorem selectTool_counterexample :
    GeminiImageGenerator.selectImageGenerationTool
      ⟨[true], [[String.toList "Derin Araştırma"]]⟩ = (false, none) ∧
    GeminiImageGenerator.selectImageGenerationTool
      ⟨[true], [[String.toList "Derin Araştırma"]]⟩ ≠ (true, some 0) := by
  refine ⟨by decide, by decide⟩

/-- C8 (amended): tool selection returns `(false, none)` when the tools menu
cannot be opened or yields no options; otherwise it clicks the first option
whose stripped, lowercased text contains an image-generation phrase; with no
textual match it falls back to the fixed positional index 2 (the 3rd item)
only when more than two options exist, and returns `(false, none)` — with no
click at all — when the menu has at most two options. -/
theorem selectTool_spec (env : ToolMenuEnv) :
    (env.toolsButtonHits.any (fun b => b) = false →
      GeminiImageGenerator.selectImageGenerationTool env = (false, none)) ∧
    (firstNonEmptyOptions env.optionLists = none →
      GeminiImageGenerator.selectImageGenerationTool env = (false, none)) ∧
    (∀ options i, env.toolsButtonHits.any (fun b => b) = true →
      firstNonEmptyOptions env.optionLists = some options →
      firstMatchIdx matchesImageGenOption options = some i →
      GeminiImageGenerator.selectImageGenerationTool env = (true, some i) ∧
      ∃ t, options[i]? = some t ∧ matchesImageGenOption t = true ∧
        ∀ j, j < i → ∃ u, options[j]? = some u ∧ matchesImageGenOption u = false) ∧
    (∀ options, env.toolsButtonHits.any (fun b => b) = true →
      firstNonEmptyOptions env.optionLists = some options →
      firstMatchIdx matchesImageGenOption options = none →
      2 < options.length →
      GeminiImageGenerator.selectImageGenerationTool env = (true, some 2)) ∧
    (∀ options, env.toolsButtonHits.any (fun b => b) = true →
      firstNonEmptyOptions env.optionLists = some options →
      firstMatchIdx matchesImageGenOption options = none →
      options.length ≤ 2 →
      GeminiImageGenerator.selectImageGenerationTool env = (false, none)) := by
  refine ⟨?_, ?_, ?_, ?_, ?_⟩
  · intro h
    simp [GeminiImageGenerator.selectImageGenerationTool, h]
  · intro h
    by_cases hb : env.toolsButtonHits.any (fun b => b) = true
    · simp [GeminiImageGenerator.selectImageGenerationTool, h, hb]
    · simp only [Bool.not_eq_true] at hb
      simp [GeminiImageGenerator.selectImageGenerationTool, hb]
  · intro options i hb hopt hidx
    constructor
    · simp [GeminiImageGenerator.selectImageGenerationTool, hb, hopt, hidx]
    · exact SpecHelpers.firstMatchIdx_spec matchesImageGenOption options i hidx
  · intro options hb hopt hidx hlen
    simp [GeminiImageGenerator.selectImageGenerationTool, hb, hopt, hidx, hlen]
  · intro options hb hopt hidx hlen
    simp [GeminiImageGenerator.selectImageGenerationTool, hb, hopt, hidx,
      Nat.not_lt.mpr hlen]

/-- C8 witness: the Turkish menu item "Görüntü oluşturun" (2nd of three) is
matched case-insensitively and clicked; with three non-matching options the
positional fallback clicks the 3rd. -/
theorem selectTool_witness :
    (GeminiImageGenerator.selectImageGenerationTool
      ⟨[false, true], [[String.toList "Derin Araştırma", String.toList "Görüntü oluşturun",
        String.toList "Tuval"]]⟩ = (true, some 1)) ∧
    (GeminiImageGenerator.selectImageGenerationTool
      ⟨[true], [[String.toList "A", String.toList "B", String.toList "C"]]⟩ =
      (true, some 2)) :=
  ⟨((selectTool_spec ⟨[false, true], [[String.toList "Derin Araştırma",
      String.toList "Görüntü oluşturun", String.toList "Tuval"]]⟩).2.2.1
      [String.toList "Derin Araştırma", String.toList "Görüntü oluşturun",
        String.toList "Tuval"] 1 (by decide) (by decide) (by decide)).1,
   (selectTool_spec ⟨[true], [[String.toList "A", String.toList "B",
      String.toList "C"]]⟩).2.2.2.1
      [String.toList "A", String.toList "B", String.toList "C"]
      (by decide) (by decide) (by decide) (by decide)⟩

/-- A file met during `_find_chrome_download`: its name, its extension
(`Path.suffix`), whether its parent directory is the canonical download
directory, and its creation timestamp (`st_ctime`, in seconds). -/
structure ScanFile where
  name : String
  suffix : String
  inDownloadDir : Bool
  ctime : Int
deriving DecidableEq, Repr

/-- One searched directory: whether it exists and the files listed in it. -/
structure ScanDir where
  dirExists : Bool
  files : List ScanFile
deriving DecidableEq, Repr

/-- The image suffixes accepted by the scan (`['.png','.jpg','.jpeg','.webp']`). -/
def imageSuffixes : List String := [".png", ".jpg", ".jpeg", ".webp"]

/-- Whether a file is a scan candidate: image suffix (lowercased) and
creation time within the 30-second freshness test
`time.time() - file_time < 30`. -/
def qualifies (now : Int) (f : ScanFile) : Bool :=
  imageSuffixes.contains (pyLowerS f.suffix) && decide (now - f.ctime < 30)

/-- One step of the inner file loop: keep the accumulated
`(latest_file, latest_time)` unless this file qualifies and is strictly newer. -/
def scanStep (now : Int) (acc : Option ScanFile × Int) (f : ScanFile) : Option ScanFile × Int :=
  if qualifies now f = true ∧ acc.2 < f.ctime then (some f, f.ctime) else acc

/-- The inner file loop of `_find_chrome_download`. -/
def scanFold (now : Int) (acc : Option ScanFile × Int) (fs : List ScanFile) :
    Option ScanFile × Int :=
  fs.foldl (scanStep now) acc

/-- The outer directory loop, starting from `latest_file = None`,
`latest_time = 0`, skipping non-existing directories. -/
def scanDirs (now : Int) (dirs : List ScanDir) : Option ScanFile × Int :=
  dirs.foldl (fun acc d => if d.dirExists then scanFold now acc d.files else acc) (none, 0)

/-- All files the loops actually iterate over (files of existing dirs). -/
def scannedFiles (dirs : List ScanDir) : List ScanFile :=
  (dirs.filter (fun d => d.dirExists)).flatMap (fun d => d.files)

/-- The `latest_file` selected by the scan. -/
def latestChromeFile (now : Int) (dirs : List ScanDir) : Option ScanFile :=
  (scanDirs now dirs).1

/-- The `ImageDownloaderService._find_chrome_download`: no candidate raises
`DownloadError`; a candidate outside the download directory is moved there
under a generated name `movedName`, otherwise its own path is returned. -/
def findChromeDownload (now : Int) (dirs : List ScanDir) (movedName : String) :
    Except PyError String :=
  match latestChromeFile now dirs with
  | none => .error ⟨.downloadError, "İndirilen dosya bulunamadı"⟩
  | some f => .ok (if f.inDownloadDir then f.name else movedName)

namespace SpecHelpers

theorem scanFold_inv (now : Int) (fs : List ScanFile) :
    ∀ acc : Option ScanFile × Int,
      acc.2 ≤ (scanFold now acc fs).2 ∧
      (scanFold now acc fs = acc ∨
        ∃ f, f ∈ fs ∧ qualifies now f = true ∧
          scanFold now acc fs = (some f, f.ctime) ∧ acc.2 < f.ctime) ∧
      (∀ f, f ∈ fs → qualifies now f = true → f.ctime ≤ (scanFold now acc fs).2) := by
  induction fs with
  | nil =>
    intro acc
    refine ⟨le_refl _, Or.inl rfl, ?_⟩
    intro f hf
    simp at hf
  | cons g rest ih =>
    intro acc
    rw [scanFold, List.foldl_cons]
    have hrest : ∀ a, rest.foldl (scanStep now) a = scanFold now a rest := fun a => rfl
    rw [hrest]
    by_cases hc : qualifies now g = true ∧ acc.2 < g.ctime
    · have hstep : scanStep now acc g = (some g, g.ctime) := by
        rw [scanStep, if_pos hc]
      rw [hstep]
      obtain ⟨ih1, ih2, ih3⟩ := ih (some g, g.ctime)
      refine ⟨le_trans (le_of_lt hc.2) ih1, ?_, ?_⟩
      · rcases ih2 with heq | ⟨f, hf, hqf, hres, hlt⟩
        · exact Or.inr ⟨g, List.mem_cons_self g rest, hc.1, heq, hc.2⟩
        · exact Or.inr ⟨f, List.mem_cons_of_mem g hf, hqf, hres, lt_trans hc.2 hlt⟩
      · intro f hf hqf
        rcases List.mem_cons.mp hf with rfl | hf'
        · exact ih1
        · exact ih3 f hf' hqf
    · have hstep : scanStep now acc g = acc := by
        rw [scanStep, if_neg hc]
      rw [hstep]
      obtain ⟨ih1, ih2, ih3⟩ := ih acc
      refine ⟨ih1, ?_, ?_⟩
      · rcases ih2 with heq | ⟨f, hf, hqf, hres, hlt⟩
        · exact Or.inl heq
        · exact Or.inr ⟨f, List.mem_cons_of_mem g hf, hqf, hres, hlt⟩
      · intro f hf hqf
        rcases List.mem_cons.mp hf with rfl | hf'
        · have hng : ¬(acc.2 < f.ctime) := fun hlt' => hc ⟨hqf, hlt'⟩
          omega
        · exact ih3 f hf' hqf

theorem scanDirs_eq_scanFold (now : Int) (dirs : List ScanDir) :
    scanDirs now dirs = scanFold now (none, 0) (scannedFiles dirs) := by
  suffices h : ∀ acc : Option ScanFile × Int,
      dirs.foldl (fun acc d => if d.dirExists then scanFold now acc d.files else acc) acc =
        scanFold now acc (scannedFiles dirs) from h (none, 0)
  induction dirs with
  | nil =>
    intro acc
    simp [scannedFiles, scanFold]
  | cons d rest ih =>
    intro acc
    rw [List.foldl_cons]
    by_cases hd : d.dirExists = true
    · rw [if_pos hd, ih]
      have hfiles : scannedFiles (d :: rest) = d.files ++ scannedFiles rest := by
        simp [scannedFiles, List.filter_cons, hd]
      rw [hfiles, scanFold, scanFold, scanFold, List.foldl_append]
    · rw [if_neg hd, ih]
      have hfiles : scannedFiles (d :: rest) = scannedFiles rest := by
        simp only [Bool.not_eq_true] at hd
        simp [scannedFiles, List.filter_cons, hd]
      rw [hfiles]

theorem scanDirs_inv (now : Int) (dirs : List ScanDir) :
    (scanDirs now dirs = (none, 0) ∨
      ∃ f, f ∈ scannedFiles dirs ∧ qualifies now f = true ∧
        scanDirs now dirs = (some f, f.ctime) ∧ 0 < f.ctime) ∧
    (∀ f, f ∈ scannedFiles dirs → qualifies now f = true →
      f.ctime ≤ (scanDirs now dirs).2) := by
  rw [scanDirs_eq_scanFold]
  obtain ⟨-, h2, h3⟩ := scanFold_inv now (scannedFiles dirs) (none, 0)
  exact ⟨h2, h3⟩

end SpecHelpers

/-- C7 counterexample: a file whose creation timestamp lies 1000 seconds in
the future — outside any ≈30-second window before `now` — is not ignored: it
is selected by the scan (the code's test is the one-sided
`time.time() - file_time < 30`). -/
theorem findChromeDownload_counterexample :
    latestChromeFile 1000 [⟨true, [⟨"future.png", ".png", true, 2000⟩]⟩] =
      some ⟨"future.png", ".png", true, 2000⟩ ∧
    ¬((1000 - 30 : Int) ≤ 2000 ∧ (2000 : Int) ≤ 1000) := by
  exact ⟨by decide, by decide⟩

/-- C7 (amended): the scan's freshness test is the one-sided
`now - ctime < 30`: every file with `now - ctime ≥ 30` is ignored even when
such stale files are the only image files present (the scan then raises
`DownloadError`); `DownloadError` is raised whenever no file qualifies; a
selected file is a qualifying scanned file of maximal creation time (moved
under the generated name when outside the download directory); and whenever
some file qualifies with a positive timestamp, one is selected. -/
theorem findChromeDownload_spec (now : Int) (dirs : List ScanDir) (movedName : String) :
    ((∀ f, f ∈ scannedFiles dirs → 30 ≤ now - f.ctime) →
      findChromeDownload now dirs movedName =
        .error ⟨.downloadError, "İndirilen dosya bulunamadı"⟩) ∧
    ((∀ f, f ∈ scannedFiles dirs → qualifies now f = false) →
      findChromeDownload now dirs movedName =
        .error ⟨.downloadError, "İndirilen dosya bulunamadı"⟩) ∧
    (∀ f, latestChromeFile now dirs = some f →
      f ∈ scannedFiles dirs ∧ qualifies now f = true ∧
      (∀ g, g ∈ scannedFiles dirs → qualifies now g = true → g.ctime ≤ f.ctime) ∧
      findChromeDownload now dirs movedName =
        .ok (if f.inDownloadDir then f.name else movedName)) ∧
    ((∃ f, f ∈ scannedFiles dirs ∧ qualifies now f = true ∧ 0 < f.ctime) →
      ∃ g, latestChromeFile now dirs = some g) := by
  obtain ⟨hdisj, hmax⟩ := SpecHelpers.scanDirs_inv now dirs
  have herror_of_none : ∀ h : latestChromeFile now dirs = none,
      findChromeDownload now dirs movedName =
        .error ⟨.downloadError, "İndirilen dosya bulunamadı"⟩ := by
    intro h
    rw [findChromeDownload, h]
  have hnoqual : (∀ f, f ∈ scannedFiles dirs → qualifies now f = false) →
      findChromeDownload now dirs movedName =
        .error ⟨.downloadError, "İndirilen dosya bulunamadı"⟩ := by
    intro hall
    rcases hdisj with heq | ⟨f, hf, hqf, -, -⟩
    · exact herror_of_none (by rw [latestChromeFile, heq])
    · rw [hall f hf] at hqf
      cases hqf
  refine ⟨?_, hnoqual, ?_, ?_⟩
  · intro hstale
    refine hnoqual (fun f hf => ?_)
    have h30 := hstale f hf
    rw [qualifies]
    have : ¬(now - f.ctime < 30) := by omega
    simp [this]
  · intro f hsome
    rcases hdisj with heq | ⟨g, hg, hqg, hres, hpos⟩
    · rw [latestChromeFile, heq] at hsome
      cases hsome
    · rw [latestChromeFile, hres] at hsome
      injection hsome with hfg
      subst hfg
      refine ⟨hg, hqg, ?_, ?_⟩
      · intro g' hg' hqg'
        have := hmax g' hg' hqg'
        rw [hres] at this
        exact this
      · rw [findChromeDownload, latestChromeFile, hres]
  · rintro ⟨f, hf, hqf, hfpos⟩
    rcases hdisj with heq | ⟨g, -, -, hres, -⟩
    · have := hmax f hf hqf
      rw [heq] at this
      simp at this
      omega
    · exact ⟨g, by rw [latestChromeFile, hres]⟩

/-- C7 witness: a stale-only directory raises `DownloadError`; with two
qualifying files the newer one (outside the download directory, so moved
under the generated name) is selected. -/
theorem findChromeDownload_spec_witness :
    findChromeDownload 1000 [⟨true, [⟨"old.png", ".png", true, 900⟩]⟩] "generated_ab12cd34.png" =
      .error ⟨.downloadError, "İndirilen dosya bulunamadı"⟩ ∧
    findChromeDownload 1000
        [⟨true, [⟨"a.png", ".png", true, 980⟩, ⟨"b.png", ".PNG", false, 990⟩]⟩]
        "generated_ab12cd34.png" =
      .ok "generated_ab12cd34.png" :=
  ⟨(findChromeDownload_spec 1000 [⟨true, [⟨"old.png", ".png", true, 900⟩]⟩]
      "generated_ab12cd34.png").1 (by decide),
   ((findChromeDownload_spec 1000
      [⟨true, [⟨"a.png", ".png", true, 980⟩, ⟨"b.png", ".PNG", false, 990⟩]⟩]
      "generated_ab12cd34.png").2.2.1 ⟨"b.png", ".PNG", false, 990⟩ (by decide)).2.2.2⟩

/-- Environment of one `ImageDownloaderService.download` call:
`findImageUrl` — the in-page `FIND_IMAGE_URL` script's return (null / raised
→ `none`); `httpStatus` — the authenticated `requests` fetch outcome (`none`
= network/driver error raised); `savedPath` — the generated
`generated_<hex>.png` path the fetch writes; `buttonAttempts` — per
download-button selector, whether `find_element` + click succeeded and the
filesystem state at the scan that follows the click; `fsNow` / `dirsFinal` —
clock and filesystem state of the final tier-3 scan; `movedName` — the
generated name used if a scanned file must be moved. -/
structure DownloadEnv where
  findImageUrl : Option (List Char)
  httpStatus : Option Nat
  savedPath : String
  buttonAttempts : List (Bool × List ScanDir)
  fsNow : Int
  dirsFinal : List ScanDir
  movedName : String

/-- The `ImageDownloaderService._download_via_requests`: transfer the session
cookies and user agent, GET the URL; any non-200 raises `DownloadError`, a
network error raises a non-domain `requests` exception; 200 persists the
bytes under a generated name. -/
def downloadViaRequests (env : DownloadEnv) (url : List Char) : Except PyError String :=
  match url, env.httpStatus with
  | _, none => .error ⟨.genericError, "requests: baglanti hatasi"⟩
  | _, some code =>
    if code ≠ 200 then .error ⟨.downloadError, "HTTP hatası: " ++ toString code⟩
    else .ok env.savedPath

/-- The `ImageDownloaderService._download_via_button`: for each download-button
selector in order, click and return `_find_chrome_download()`; ANY failure in
that attempt (including the scan itself) falls through to the next selector;
exhausting the selectors raises `DownloadError`. -/
def downloadViaButton (now : Int) (movedName : String) :
    List (Bool × List ScanDir) → Except PyError String
  | [] => .error ⟨.downloadError, "İndirme butonu bulunamadı"⟩
  | (hit, dirs) :: rest =>
    if hit then
      match findChromeDownload now dirs movedName with
      | .ok p => .ok p
      | .error _ => downloadViaButton now movedName rest
    else downloadViaButton now movedName rest

/-- The `ImageDownloaderService.download`: locate the image URL (raising
`DownloadError` when the script yields none), rewrite it to maximum quality,
then try the requests tier, the button tier and the filesystem-scan tier in
order, each tier's exception being swallowed; all three failing raises
`DownloadError` with the all-strategies-failed message. -/
def ImageDownloaderService.download (env : DownloadEnv) : Except PyError String :=
  match env.findImageUrl with
  | none => .error ⟨.downloadError, "Görsel URL bulunamadı"⟩
  | some url =>
    match downloadViaRequests env (getHighQualityUrl url) with
    | .ok p => .ok p
    | .error _ =>
      match downloadViaButton env.fsNow env.movedName env.buttonAttempts with
      | .ok p => .ok p
      | .error _ =>
        match findChromeDownload env.fsNow env.dirsFinal env.movedName with
        | .ok p => .ok p
        | .error _ => .error ⟨.downloadError, "Tüm indirme yöntemleri başarısız oldu"⟩

namespace SpecHelpers

theorem download_url_none {env : DownloadEnv} (h : env.findImageUrl = none) :
    ImageDownloaderService.download env = .error ⟨.downloadError, "Görsel URL bulunamadı"⟩ := by
  rw [ImageDownloaderService.download, h]

theorem download_tier1_ok {env : DownloadEnv} {url : List Char} {p : String}
    (hu : env.findImageUrl = some url)
    (h1 : downloadViaRequests env (getHighQualityUrl url) = .ok p) :
    ImageDownloaderService.download env = .ok p := by
  simp only [ImageDownloaderService.download, hu, h1]

theorem download_tier2_ok {env : DownloadEnv} {url : List Char} {e1 : PyError} {p : String}
    (hu : env.findImageUrl = some url)
    (h1 : downloadViaRequests env (getHighQualityUrl url) = .error e1)
    (h2 : downloadViaButton env.fsNow env.movedName env.buttonAttempts = .ok p) :
    ImageDownloaderService.download env = .ok p := by
  simp only [ImageDownloaderService.download, hu, h1, h2]

theorem download_tier3_ok {env : DownloadEnv} {url : List Char} {e1 e2 : PyError} {p : String}
    (hu : env.findImageUrl = some url)
    (h1 : downloadViaRequests env (getHighQualityUrl url) = .error e1)
    (h2 : downloadViaButton env.fsNow env.movedName env.buttonAttempts = .error e2)
    (h3 : findChromeDownload env.fsNow env.dirsFinal env.movedName = .ok p) :
    ImageDownloaderService.download env = .ok p := by
  simp only [ImageDownloaderService.download, hu, h1, h2, h3]

theorem download_all_failed {env : DownloadEnv} {url : List Char} {e1 e2 e3 : PyError}
    (hu : env.findImageUrl = some url)
    (h1 : downloadViaRequests env (getHighQualityUrl url) = .error e1)
    (h2 : downloadViaButton env.fsNow env.movedName env.buttonAttempts = .error e2)
    (h3 : findChromeDownload env.fsNow env.dirsFinal env.movedName = .error e3) :
    ImageDownloaderService.download env =
      .error ⟨.downloadError, "Tüm indirme yöntemleri başarısız oldu"⟩ := by
  simp only [ImageDownloaderService.download, hu, h1, h2, h3]

end SpecHelpers

/-- A concrete environment in which the image-URL lookup yields none while
the button tier and the filesystem-scan tier would both succeed. -/
def downloadCounterEnv : DownloadEnv :=
  ⟨none, some 200, "generated_99999999.png",
   [(true, [⟨true, [⟨"fresh.png", ".png", true, 995⟩]⟩])],
   1000, [⟨true, [⟨"fresh.png", ".png", true, 995⟩]⟩], "generated_44444444.png"⟩

/-- C2 counterexample: with the URL lookup yielding none, `download` raises
`DownloadError` with the URL-not-found message immediately — it does not try
the remaining tiers even though the filesystem-scan tier (and the button
tier) would succeed, and the message is not the all-strategies-failed one. -/
theorem download_counterexample :
    ImageDownloaderService.download downloadCounterEnv =
      .error ⟨.downloadError, "Görsel URL bulunamadı"⟩ ∧
    findChromeDownload downloadCounterEnv.fsNow downloadCounterEnv.dirsFinal
      downloadCounterEnv.movedName = .ok "fresh.png" ∧
    downloadViaButton downloadCounterEnv.fsNow downloadCounterEnv.movedName
      downloadCounterEnv.buttonAttempts = .ok "fresh.png" ∧
    ("Görsel URL bulunamadı" : String) ≠ "Tüm indirme yöntemleri başarısız oldu" := by
  refine ⟨rfl, rfl, rfl, by decide⟩

/-- C2 (amended): once the in-page URL lookup yields a URL, the three tiers
are tried strictly in order — authenticated fetch, download-button click,
filesystem scan — the first succeeding tier's result is returned, and the
all-strategies-failed `DownloadError` is raised exactly when all three tiers
fail; when the URL lookup yields none, `download` raises `DownloadError`
with the URL-not-found message at once, attempting no tier. -/
theorem download_tiers (env : DownloadEnv) :
    (env.findImageUrl = none →
      ImageDownloaderService.download env =
        .error ⟨.downloadError, "Görsel URL bulunamadı"⟩) ∧
    (∀ url p, env.findImageUrl = some url →
      downloadViaRequests env (getHighQualityUrl url) = .ok p →
      ImageDownloaderService.download env = .ok p) ∧
    (∀ url e1 p, env.findImageUrl = some url →
      downloadViaRequests env (getHighQualityUrl url) = .error e1 →
      downloadViaButton env.fsNow env.movedName env.buttonAttempts = .ok p →
      ImageDownloaderService.download env = .ok p) ∧
    (∀ url e1 e2 p, env.findImageUrl = some url →
      downloadViaRequests env (getHighQualityUrl url) = .error e1 →
      downloadViaButton env.fsNow env.movedName env.buttonAttempts = .error e2 →
      findChromeDownload env.fsNow env.dirsFinal env.movedName = .ok p →
      ImageDownloaderService.download env = .ok p) ∧
    (ImageDownloaderService.download env =
        .error ⟨.downloadError, "Tüm indirme yöntemleri başarısız oldu"⟩ ↔
      ∃ url e1 e2 e3, env.findImageUrl = some url ∧
        downloadViaRequests env (getHighQualityUrl url) = .error e1 ∧
        downloadViaButton env.fsNow env.movedName env.buttonAttempts = .error e2 ∧
        findChromeDownload env.fsNow env.dirsFinal env.movedName = .error e3) := by
  refine ⟨SpecHelpers.download_url_none,
    fun url p hu h1 => SpecHelpers.download_tier1_ok hu h1,
    fun url e1 p hu h1 h2 => SpecHelpers.download_tier2_ok hu h1 h2,
    fun url e1 e2 p hu h1 h2 h3 => SpecHelpers.download_tier3_ok hu h1 h2 h3,
    ?_, ?_⟩
  · intro h
    cases hu : env.findImageUrl with
    | none =>
      rw [SpecHelpers.download_url_none hu] at h
      injection h with h'
      injection h' with hk hm
      exact absurd hm (by decide)
    | some url =>
      cases h1 : downloadViaRequests env (getHighQualityUrl url) with
      | ok p =>
        rw [SpecHelpers.download_tier1_ok hu h1] at h
        exact Except.noConfusion h
      | error e1 =>
        cases h2 : downloadViaButton env.fsNow env.movedName env.buttonAttempts with
        | ok p =>
          rw [SpecHelpers.download_tier2_ok hu h1 h2] at h
          exact Except.noConfusion h
        | error e2 =>
          cases h3 : findChromeDownload env.fsNow env.dirsFinal env.movedName with
          | ok p =>
            rw [SpecHelpers.download_tier3_ok hu h1 h2 h3] at h
            exact Except.noConfusion h
          | error e3 => exact ⟨url, e1, e2, e3, rfl, h1, rfl, rfl⟩
  · rintro ⟨url, e1, e2, e3, hu, h1, h2, h3⟩
    exact SpecHelpers.download_all_failed hu h1 h2 h3

/-- C2 witness: a concrete environment where the fetch gets HTTP 403, no
download button matches, and the final scan finds nothing: the
all-strategies-failed `DownloadError` is raised; and a tier-1 success returns
the fetched path directly. -/
theorem download_tiers_witness :
    ImageDownloaderService.download
      ⟨some (String.toList "https://x/img=w512"), some 403, "unused.png", [(false, [])],
        1000, [⟨true, [⟨"old.png", ".png", true, 100⟩]⟩], "generated_55555555.png"⟩ =
      .error ⟨.downloadError, "Tüm indirme yöntemleri başarısız oldu"⟩ ∧
    ImageDownloaderService.download
      ⟨some (String.toList "https://x/img=w512"), some 200, "generated_66666666.png", [],
        1000, [], "generated_77777777.png"⟩ = .ok "generated_66666666.png" :=
  ⟨(download_tiers _).2.2.2.2.mpr
    ⟨String.toList "https://x/img=w512", ⟨.downloadError, "HTTP hatası: " ++ toString 403⟩,
     ⟨.downloadError, "İndirme butonu bulunamadı"⟩,
     ⟨.downloadError, "İndirilen dosya bulunamadı"⟩, rfl, rfl, rfl, rfl⟩,
   (download_tiers _).2.1 (String.toList "https://x/img=w512") "generated_66666666.png"
     rfl rfl⟩

/-- The `ImageEntity` (`entities.py`): path plus a generated opaque id (the
`created_at` timestamp is never consulted by the use cases). -/
structure ImageEntity where
  path : String
  id : String
deriving DecidableEq, Repr

/-- The artifacts collected by the per-image loop of
`GenerateImageUseCase.execute` over `count` iterations: `iter i` is iteration
`i`'s outcome — `some image` when `start_new_session` + `generate_image`
succeeded, `none` when any step of that iteration raised (the loop's
`except Exception: continue` swallows it and moves on). -/
def collectGenerated (iter : Nat → Option ImageEntity) (count : Nat) : List ImageEntity :=
  (List.range count).filterMap iter

/-- The `GenerateImageUseCase.execute`: run `count` per-image iterations, each
failure caught and skipped; raise `ImageGenerationError` only when NO image
was produced, else return the produced images in order. -/
def GenerateImageUseCase.execute (iter : Nat → Option ImageEntity) (count : Nat) :
    Except PyError (List ImageEntity) :=
  if (collectGenerated iter count).isEmpty then
    .error ⟨.imageGenerationError, "Hiçbir görsel oluşturulamadı"⟩
  else
    .ok (collectGenerated iter count)

/-- The `AnalyzeImageUseCase.execute`: any failure of browser start or analysis
(`raw = .error`) is re-raised as `AIServiceError`. -/
def AnalyzeImageUseCase.execute (raw : Except PyError String) : Except PyError String :=
  match raw with
  | .ok p => .ok p
  | .error _ => .error ⟨.aiServiceError, "Görsel analizi başarısız"⟩

/-- The `ImageProcessResult` (`dtos/requests.py`). -/
structure ImageProcessResult where
  success : Bool
  generated_image_paths : List String
  extracted_prompt : Option String
  error_message : Option String
  duration_seconds : Int
deriving DecidableEq, Repr

/-- Environment of one `ProcessImageWorkflowUseCase.execute` run: the
analysis outcome, the per-image iteration outcomes, the requested count and
the measured duration. -/
structure WorkflowEnv where
  analyzeRaw : Except PyError String
  iter : Nat → Option ImageEntity
  targetCount : Nat
  duration : Int

/-- The `ProcessImageWorkflowUseCase.execute`: analysis then generation; any
`DomainException` is converted into a terminal failed `ImageProcessResult`
(the `finally` browser teardown swallows its own errors and is outcome-
neutral); success carries the produced images' paths in order. -/
def ProcessImageWorkflowUseCase.execute (env : WorkflowEnv) :
    Except PyError ImageProcessResult :=
  match AnalyzeImageUseCase.execute env.analyzeRaw with
  | .error e =>
    if isDomainException e.kind then .ok ⟨false, [], none, some e.msg, env.duration⟩
    else .error e
  | .ok prompt =>
    match GenerateImageUseCase.execute env.iter env.targetCount with
    | .error e =>
      if isDomainException e.kind then .ok ⟨false, [], none, some e.msg, env.duration⟩
      else .error e
    | .ok imgs => .ok ⟨true, imgs.map (fun i => i.path), some prompt, none, env.duration⟩

/-- One per-image iteration of the generation loop, at the download level:
`preOk` — session reset, tool selection, prompt send and generation wait all
succeeded; `denv` — the environment of the iteration's `download` call. -/
structure IterEnv where
  preOk : Bool
  denv : DownloadEnv

/-- The iteration outcome induced by an `IterEnv`: an `ImageEntity` wrapping
the downloaded path (its id opaque/generated) on success, `none` on any
failure. -/
def runIteration (ie : IterEnv) : Option ImageEntity :=
  if ie.preOk then
    match ImageDownloaderService.download ie.denv with
    | .ok p => some ⟨p, ""⟩
    | .error _ => none
  else none

/-- C1: partial progress is preserved — with the analysis succeeding, any
iteration `k < count` that produced an image forces a successful terminal
result whose path list contains that image and lists exactly the successful
iterations' artifacts in order; and in the two-image scenario where image 1
downloads via the tier-1 fetch and image 2 only via the tier-3 filesystem
scan, the terminal result has `success = true` and `generated_image_paths`
of length 2. -/
theorem workflow_partial_progress (env : WorkflowEnv) :
    (∀ pr k img, env.analyzeRaw = .ok pr → k < env.targetCount → env.iter k = some img →
      ∃ res : ImageProcessResult,
        ProcessImageWorkflowUseCase.execute env = .ok res ∧
        res.success = true ∧
        img.path ∈ res.generated_image_paths ∧
        res.generated_image_paths =
          (collectGenerated env.iter env.targetCount).map (fun i => i.path)) ∧
    (∀ (pr : String) (ienv : Nat → IterEnv), env.analyzeRaw = .ok pr → env.targetCount = 2 →
      env.iter = (fun i => runIteration (ienv i)) →
      (ienv 0).preOk = true →
      (∃ u1 p1, (ienv 0).denv.findImageUrl = some u1 ∧
        downloadViaRequests (ienv 0).denv (getHighQualityUrl u1) = .ok p1) →
      (ienv 1).preOk = true →
      (∃ u2 e1 e2 p2, (ienv 1).denv.findImageUrl = some u2 ∧
        downloadViaRequests (ienv 1).denv (getHighQualityUrl u2) = .error e1 ∧
        downloadViaButton (ienv 1).denv.fsNow (ienv 1).denv.movedName
          (ienv 1).denv.buttonAttempts = .error e2 ∧
        findChromeDownload (ienv 1).denv.fsNow (ienv 1).denv.dirsFinal
          (ienv 1).denv.movedName = .ok p2) →
      ∃ res : ImageProcessResult,
        ProcessImageWorkflowUseCase.execute env = .ok res ∧
        res.success = true ∧ res.generated_image_paths.length = 2) := by
  constructor
  · intro pr k img han hk hit
    have hmem : img ∈ collectGenerated env.iter env.targetCount := by
      rw [collectGenerated]
      exact List.mem_filterMap.mpr ⟨k, List.mem_range.mpr hk, hit⟩
    have hne : (collectGenerated env.iter env.targetCount).isEmpty = false := by
      cases hl : collectGenerated env.iter env.targetCount
      · rw [hl] at hmem
        cases hmem
      · rfl
    have hgen : GenerateImageUseCase.execute env.iter env.targetCount =
        .ok (collectGenerated env.iter env.targetCount) := by
      simp [GenerateImageUseCase.execute, hne]
    refine ⟨⟨true, (collectGenerated env.iter env.targetCount).map (fun i => i.path),
      some pr, none, env.duration⟩, ?_, rfl, ?_, rfl⟩
    · simp [ProcessImageWorkflowUseCase.execute, AnalyzeImageUseCase.execute, han, hgen]
    · exact List.mem_map.mpr ⟨img, hmem, rfl⟩
  · rintro pr ienv han hcount hiter h0pre ⟨u1, p1, hu1, h1ok⟩ h1pre
      ⟨u2, e1, e2, p2, hu2, he1, he2, h3ok⟩
    have hd0 : ImageDownloaderService.download (ienv 0).denv = .ok p1 :=
      SpecHelpers.download_tier1_ok hu1 h1ok
    have hd1 : ImageDownloaderService.download (ienv 1).denv = .ok p2 :=
      SpecHelpers.download_tier3_ok hu2 he1 he2 h3ok
    have hit0 : env.iter 0 = some ⟨p1, ""⟩ := by
      rw [hiter]
      simp [runIteration, h0pre, hd0]
    have hit1 : env.iter 1 = some ⟨p2, ""⟩ := by
      rw [hiter]
      simp [runIteration, h1pre, hd1]
    have hcol : collectGenerated env.iter env.targetCount = [⟨p1, ""⟩, ⟨p2, ""⟩] := by
      rw [hcount, collectGenerated, show List.range 2 = [0, 1] from rfl]
      simp [hit0, hit1]
    have hgen : GenerateImageUseCase.execute env.iter env.targetCount =
        .ok [⟨p1, ""⟩, ⟨p2, ""⟩] := by
      simp [GenerateImageUseCase.execute, hcol]
    refine ⟨⟨true, [p1, p2], some pr, none, env.duration⟩, ?_, rfl, rfl⟩
    simp [ProcessImageWorkflowUseCase.execute, AnalyzeImageUseCase.execute, han, hgen]

/-- Tier-1 environment of the two-image scenario: authenticated fetch
returns HTTP 200. -/
def wfTier1Env : DownloadEnv :=
  ⟨some (String.toList "https://lh3.example/img=w512"), some 200, "generated_11111111.png",
   [], 1000, [], "generated_22222222.png"⟩

/-- Tier-3 environment of the two-image scenario: fetch gets HTTP 404, no
download button matches, but the filesystem scan finds a fresh file. -/
def wfTier3Env : DownloadEnv :=
  ⟨some (String.toList "https://lh3.example/img2=w512"), some 404, "unused.png",
   [(false, [])], 1000, [⟨true, [⟨"fresh.png", ".png", true, 995⟩]⟩],
   "generated_33333333.png"⟩

/-- The two iterations of the scenario. -/
def wfIterEnv : Nat → IterEnv :=
  fun i => if i = 0 then ⟨true, wfTier1Env⟩ else ⟨true, wfTier3Env⟩

/-- The concrete two-image workflow environment. -/
def wfEnv : WorkflowEnv :=
  ⟨.ok "a descriptive prompt", fun i => runIteration (wfIterEnv i), 2, 42⟩

/-- C1 witness: the concrete two-image run (image 1 via tier-1 fetch, image 2
via tier-3 scan) terminates with `success = true` and two paths. -/
theorem workflow_partial_progress_witness :
    ∃ res : ImageProcessResult,
      ProcessImageWorkflowUseCase.execute wfEnv = .ok res ∧
      res.success = true ∧ res.generated_image_paths.length = 2 :=
  (workflow_partial_progress wfEnv).2 "a descriptive prompt" wfIterEnv rfl rfl rfl rfl
    ⟨String.toList "https://lh3.example/img=w512", "generated_11111111.png", rfl, rfl⟩
    rfl
    ⟨String.toList "https://lh3.example/img2=w512",
     ⟨.downloadError, "HTTP hatası: " ++ toString 404⟩,
     ⟨.downloadError, "İndirme butonu bulunamadı"⟩, "fresh.png", rfl, rfl, rfl, rfl⟩
